import Mathlib

/-!
Shallow embedding of the PGlite SqlClient core of this repository
(src/src/PGlite/PGliteClient.ts, with the earlier iteration in
src/unnamed/part_010) for verifying its natural-language specification.

The embedding covers:
* the statement compiler callbacks onIdentifier, onInsert, onRecordUpdate and
  onRecordUpdateSingle, lines 91-184 of PGliteClient.ts, together with the
  small amount of glue (identifier escaping, placeholder generation, column
  joining) that the @effect/sql Statement.makeCompiler library supplies to
  those callbacks;
* the connection methods run, runRaw, execute, executeRaw and executeValues of
  PGliteConnectionImpl, lines 210-265, over an abstract engine function;
* the statement traces produced by withTransaction (lines 278-305, built on
  the @effect/sql SqlClient.makeWithTransaction combinator) and by the bare
  statement acquirer (lines 307-313, and lines 245 and 268-274 of part_010).

JavaScript values carried as SQL parameters are modelled by the inductive
type Value; JavaScript string and array operations used by the source
(split, slice, trim, indexOf, flat, JSON.stringify) are modelled by
executable functions on Lean strings and lists.
-/

/-- JavaScript values that can appear in a parameter list: the scalar cases
recognised by the typeof checks of the source (boolean, number, string),
plus null, arrays and plain objects, which the source serializes with
JSON.stringify. Numbers are modelled as integers; the claims only exercise
integral numbers. -/
inductive Value where
  | bool (b : Bool)
  | num (n : Int)
  | str (s : String)
  | null
  | arr (xs : List Value)
  | obj (fields : List (String × Value))
deriving Repr

/-- Models the JSON string escaping performed by JSON.stringify for the
escape sequences relevant here (quote, backslash, newline, tab, carriage
return); other characters pass through unchanged. -/
def jsonEscape : List Char → List Char
  | [] => []
  | c :: rest =>
    if c = '"' then '\\' :: '"' :: jsonEscape rest
    else if c = '\\' then '\\' :: '\\' :: jsonEscape rest
    else if c = '\n' then '\\' :: 'n' :: jsonEscape rest
    else if c = '\t' then '\\' :: 't' :: jsonEscape rest
    else if c = '\r' then '\\' :: 'r' :: jsonEscape rest
    else c :: jsonEscape rest

/-- Quoted JSON string literal, as produced by JSON.stringify for strings. -/
def jsonQuote (s : String) : String := ⟨'"' :: jsonEscape s.data ++ ['"']⟩

mutual

/-- Models JSON.stringify on a Value. In particular
JSON.stringify(null) is the four character string null. -/
def jsonStringify : Value → String
  | Value.null => "null"
  | Value.bool true => "true"
  | Value.bool false => "false"
  | Value.num n => toString n
  | Value.str s => jsonQuote s
  | Value.arr xs => "[" ++ jsonStringifyList xs ++ "]"
  | Value.obj fs => "\x7b" ++ jsonStringifyFields fs ++ "\x7d"

/-- Comma separated JSON serialization of array elements. -/
def jsonStringifyList : List Value → String
  | [] => ""
  | [v] => jsonStringify v
  | v :: rest => jsonStringify v ++ "," ++ jsonStringifyList rest

/-- Comma separated JSON serialization of object fields. -/
def jsonStringifyFields : List (String × Value) → String
  | [] => ""
  | [(k, v)] => jsonQuote k ++ ":" ++ jsonStringify v
  | (k, v) :: rest => jsonQuote k ++ ":" ++ jsonStringify v ++ "," ++ jsonStringifyFields rest

end

/-- The typeof test of the source value mappers: true exactly for boolean,
number and string values (PGliteClient.ts lines 128, 159, 175). -/
def isScalar : Value → Bool
  | Value.bool _ => true
  | Value.num _ => true
  | Value.str _ => true
  | _ => false

/-- The value mapper shared by onInsert (lines 127-131), onRecordUpdate
(lines 158-162) and onRecordUpdateSingle (lines 174-178): scalars pass
through unchanged, every other value is replaced by its JSON.stringify
serialization. -/
def encodeValue (a : Value) : Value :=
  if isScalar a then a else Value.str (jsonStringify a)

/-- Doubling of embedded quote characters, the character level content of
the regular expression replace performed by Statement.defaultEscape of the
@effect/sql library, instantiated at the double quote character as in
PGliteClient.ts line 91. -/
def doubleQuotesL : List Char → List Char
  | [] => []
  | c :: rest =>
    if c = '"' then '"' :: '"' :: doubleQuotesL rest else c :: doubleQuotesL rest

/-- String level wrapper of doubleQuotesL. -/
def doubleQuotes (s : String) : String := ⟨doubleQuotesL s.data⟩

/-- Statement.defaultEscape applied to the double quote character: wraps the
name in double quotes after doubling every embedded double quote
(PGliteClient.ts line 91, library glue). -/
def escape (s : String) : String := "\"" ++ doubleQuotes s ++ "\""

/-- Inverse of quote doubling: collapses each adjacent pair of double quote
characters back to a single one. Stated from the claim wording, as the
decoding direction of the round trip property. -/
def undoubleL : List Char → List Char
  | [] => []
  | [c] => [c]
  | c :: d :: rest =>
    if c = '"' ∧ d = '"' then '"' :: undoubleL rest
    else c :: undoubleL (d :: rest)

/-- Decoder for escaped identifiers: strip the outer quotes, then collapse
doubled quotes. Stated from the claim wording, as the decoding direction of
the round trip property. -/
def unescape (s : String) : String := ⟨undoubleL ((s.data.drop 1).dropLast)⟩

/-- The onIdentifier callback, PGliteClient.ts lines 118-119: when a
transform is configured and not suppressed it is applied before quoting,
otherwise the raw name is quoted. -/
def onIdentifier (transform : Option (String → String)) (value : String)
    (withoutTransform : Bool) : String :=
  match transform with
  | none => escape value
  | some f => if withoutTransform then escape value else escape (f value)

/-- One parenthesized placeholder group, as generated by the placeholder
glue of Statement.makeCompiler: cols placeholders numbered consecutively
from start. -/
def placeholderGroup (start cols : Nat) : String :=
  "(" ++ String.intercalate ","
      ((List.range cols).map (fun j => "$" ++ toString (start + j))) ++ ")"

/-- The list of placeholder groups for a bulk insert of rowCount rows of
colCount columns, numbering the positional parameters row major from one,
as the placeholder counter of Statement.makeCompiler does for a statement
consisting of the single insert fragment. -/
def insertValueGroups (rowCount colCount : Nat) : List String :=
  (List.range rowCount).map (fun i => placeholderGroup (i * colCount + 1) colCount)

/-- The placeholders string handed to onInsert by Statement.makeCompiler:
the comma separated placeholder groups. -/
def insertPlaceholders (rowCount colCount : Nat) : String :=
  String.intercalate "," (insertValueGroups rowCount colCount)

/-- The RETURNING suffix appended by the compiler callbacks when a returning
clause is present, empty otherwise. -/
def returningClause : Option (String × List Value) → String
  | none => ""
  | some r => " RETURNING " ++ r.1

/-- The extra parameters appended for a returning clause, empty otherwise
(the JavaScript vals.concat(returning[1]) branch). -/
def returningParams : Option (String × List Value) → List Value
  | none => []
  | some r => r.2

/-- The onInsert callback, PGliteClient.ts lines 120-134: emits the column
list, the VALUES keyword and the placeholder groups, and flattens the rows
into one parameter list with encodeValue applied to every entry. -/
def onInsert (columns : List String) (placeholders : String)
    (values : List (List Value)) (returning : Option (String × List Value)) :
    String × List Value :=
  let sql := "(" ++ String.intercalate ", " columns ++ ") VALUES " ++ placeholders ++
    returningClause returning
  let vals := values.flatten.map encodeValue
  (sql, vals ++ returningParams returning)

/-- Compilation of a bulk insert fragment: Statement.makeCompiler escapes
the column names with onIdentifier (here the default escape), builds the
placeholder groups, extracts one value row per record, and calls onInsert
(library glue around PGliteClient.ts lines 120-134). -/
def compileInsert (columns : List String) (rows : List (List Value)) :
    String × List Value :=
  onInsert (columns.map escape) (insertPlaceholders rows.length columns.length) rows none

/-- Models the JavaScript single character string split: s.split(sep)
accumulates the characters between occurrences of the separator. -/
def splitCharAux (sep : Char) : List Char → List Char → List (List Char)
  | [], acc => [acc.reverse]
  | c :: rest, acc =>
    if c = sep then acc.reverse :: splitCharAux sep rest []
    else splitCharAux sep rest (c :: acc)

/-- JavaScript split with a one character separator. -/
def jsSplit (s : String) (sep : Char) : List String :=
  (splitCharAux sep s.data []).map (fun l => ⟨l⟩)

/-- Whitespace test for jsTrim, covering the whitespace characters that can
occur in the compiled SQL. -/
def wsChar (c : Char) : Bool := c = ' ' || c = '\t' || c = '\n' || c = '\r'

/-- Models the JavaScript string trim: removes whitespace from both ends. -/
def jsTrim (s : String) : String :=
  ⟨((s.data.dropWhile wsChar).reverse.dropWhile wsChar).reverse⟩

/-- Models the JavaScript slice(a, b) on strings for 0 ≤ a ≤ b ≤ length:
the characters with indices in [a, b). -/
def jsSlice (s : String) (a b : Nat) : String := ⟨(s.data.take b).drop a⟩

/-- The onRecordUpdate callback, PGliteClient.ts lines 135-165. The columns
argument is the parenthesized comma joined list of escaped column names
supplied by the compiler; the callback strips the outer parentheses, splits
on commas, filters out columns equal to the bare string id, and emits one
CASE clause per remaining column plus a WHERE id IN clause. The ids array
of the source is only used for its indices, so the WHERE clause is built
over List.range values.length; List.indexOf returns the list length for a
missing element where JavaScript indexOf returns minus one, but every
filtered column is a member of columnNames so that branch is unreachable.
The placeholders and alias arguments are ignored by the source. -/
def onRecordUpdate (_placeholders _alias columns : String)
    (values : List (List Value)) (returning : Option (String × List Value)) :
    String × List Value :=
  let columnNames := jsSplit (jsSlice columns 1 (columns.length - 1)) ','
  let n := columnNames.length
  let setClauses := String.intercalate ", "
    ((columnNames.filter (fun col => col != "id")).map (fun col =>
      let valueIndex := columnNames.indexOf col
      let cases := String.intercalate " "
        ((List.range values.length).map (fun index =>
          "WHEN id = $" ++ toString (index * n + 1) ++
            " THEN $" ++ toString (index * n + valueIndex + 1)))
      col ++ " = CASE " ++ cases ++ " ELSE " ++ col ++ " END"))
  let whereIn := String.intercalate ", "
    ((List.range values.length).map (fun i => "$" ++ toString (i * n + 1)))
  let sql := jsTrim (setClauses ++ " WHERE id IN (" ++ whereIn ++ ")" ++
    returningClause returning)
  let vals := values.flatten.map encodeValue
  (sql, vals ++ returningParams returning)

/-- Compilation of a bulk update fragment: Statement.makeCompiler passes the
placeholder groups, the fragment alias, the parenthesized comma joined
escaped column names, and one value row per record to onRecordUpdate
(library glue around PGliteClient.ts lines 135-165). -/
def compileBulkUpdate (keys : List String) (rows : List (List Value)) :
    String × List Value :=
  onRecordUpdate (insertPlaceholders rows.length keys.length) "data"
    ("(" ++ String.intercalate "," (keys.map escape) ++ ")") rows none

/-- The onRecordUpdateSingle callback, PGliteClient.ts lines 166-181: one
assignment per column with consecutively numbered placeholders, values
mapped through encodeValue. -/
def onRecordUpdateSingle (columns : List String) (values : List Value)
    (returning : Option (String × List Value)) : String × List Value :=
  let sql := String.intercalate ", "
      (columns.enum.map (fun p => p.2 ++ "=$" ++ toString (p.1 + 1))) ++
    returningClause returning
  let vals := values.map encodeValue
  (sql, vals ++ returningParams returning)

/-- A decoded result row: a JavaScript object with field names in insertion
order. -/
abbrev Row := List (String × Value)

/-- The engine native result of a query, of which the connection methods
use the rows array (PGliteClient.ts line 222). -/
structure Results where
  rows : List Row

/-- The typed execution error constructed by the connection methods
(PGliteClient.ts lines 220 and 232): the engine native cause together with
the message string built there. The engine native cause is modelled as a
string. -/
structure SqlError where
  cause : String
  message : String
deriving Repr, DecidableEq

/-- The engine entry point this.sdk.query: a function from SQL text and
parameters to an engine native result or an engine native error. -/
abbrev Engine := String → List Value → Except String Results

/-- Field lookup on a row object. -/
def lookupField (row : Row) (key : String) : Option Value :=
  match row.find? (fun kv => kv.1 == key) with
  | some kv => some kv.2
  | none => none

/-- Models JavaScript Array.from applied to a decoded row object
(PGliteClient.ts line 251). A plain object is not iterable, so Array.from
treats it as array like: it reads the length property, absent on an
ordinary row object, giving length zero, and then the numeric index
properties. An ordinary row object therefore yields the empty array. -/
def jsArrayFrom (row : Row) : List Value :=
  match lookupField row "length" with
  | some (Value.num len) =>
    (List.range len.toNat).filterMap (fun i => lookupField row (toString i))
  | _ => []

namespace PGliteConnection

/-- PGliteConnectionImpl.run, PGliteClient.ts lines 213-224: queries the
engine, wraps an engine failure into a SqlError with the fixed message, and
projects the rows of a successful result. -/
def run (engine : Engine) (sql : String) (params : List Value) :
    Except SqlError (List Row) :=
  match engine sql params with
  | Except.error cause => Except.error ⟨cause, "Failed to execute statement"⟩
  | Except.ok results => Except.ok results.rows

/-- PGliteConnectionImpl.runRaw, lines 226-234: like run but returns the
engine native result. -/
def runRaw (engine : Engine) (sql : String) (params : List Value) :
    Except SqlError Results :=
  match engine sql params with
  | Except.error cause => Except.error ⟨cause, "Failed to execute statement"⟩
  | Except.ok results => Except.ok results

/-- PGliteConnectionImpl.execute, lines 236-244: run, with the optional row
transform mapped over a successful result. -/
def execute (engine : Engine) (sql : String) (params : List Value)
    (transformRows : Option (List Row → List Row)) : Except SqlError (List Row) :=
  match transformRows with
  | some f => (run engine sql params).map f
  | none => run engine sql params

/-- PGliteConnectionImpl.executeRaw, lines 246-248: delegates to runRaw. -/
def executeRaw (engine : Engine) (sql : String) (params : List Value) :
    Except SqlError Results :=
  runRaw engine sql params

/-- PGliteConnectionImpl.executeValues, lines 250-252: run, then
Array.from applied to every row. -/
def executeValues (engine : Engine) (sql : String) (params : List Value) :
    Except SqlError (List (List Value)) :=
  (run engine sql params).map (fun rows => rows.map jsArrayFrom)

end PGliteConnection

/-- Observable events at the shared connection: an SQL text reaching the
engine, and the gate permit operations of a single permit semaphore. -/
inductive Ev where
  | sql (text : String)
  | acquire
  | release
deriving Repr, BEq, DecidableEq

/-- How a computation ends: success, a typed failure, or interruption by
cancellation. -/
inductive ExitKind where
  | success
  | failure
  | interrupted
deriving Repr, BEq, DecidableEq

/-- A transaction body: it can end with a given exit kind, execute a
statement through the ambient acquirer and continue, or run a nested
withTransaction and continue on one of two branches according to the exit
of the nested call (an interrupted nested call propagates the
interruption). -/
inductive Body where
  | done (e : ExitKind)
  | run (sql : String) (rest : Body)
  | tx (inner : Body) (onSuccess : Body) (onError : Body)

/-- The savepoint statement issued by the savepoint callback,
PGliteClient.ts line 301. -/
def savepointSql (id : Nat) : String :=
  "SAVEPOINT effect_sql_" ++ toString id ++ ";"

/-- The rollback to savepoint statement issued by the rollbackSavepoint
callback, PGliteClient.ts line 304. -/
def rollbackSavepointSql (id : Nat) : String :=
  "ROLLBACK TO SAVEPOINT effect_sql_" ++ toString id ++ ";"

/-- The transaction counter given to a withTransaction call: zero with no
ambient transaction, the ambient counter plus one inside one, as computed
by the @effect/sql SqlClient.makeWithTransaction combinator. -/
def nextId : Option Nat → Nat
  | none => 0
  | some n => n + 1

/-- The statement trace of one withTransaction call around a body that
produced the trace bodyTrace and exit e, following
SqlClient.makeWithTransaction instantiated with the callbacks of
PGliteClient.ts lines 278-305. With no ambient transaction the
acquireConnection effect of lines 281-299 runs first: it issues BEGIN, and
its Effect.ensuring finalizer, being attached to the BEGIN effect itself
rather than to the transaction scope, issues ROLLBACK immediately
afterwards, before the body runs; the begin callback is Effect.void; after
the body, COMMIT is issued on success and ROLLBACK otherwise (also on
interruption, since the combinator keeps everything but the body
uninterruptible), and closing the finalizer free scope adds nothing.
Inside an ambient transaction at counter n the call issues the savepoint
statement for level n plus one, and after the body nothing on success and
the rollback to savepoint statement otherwise. No semaphore operation
occurs anywhere on this path in the source. -/
def withTxGlue (ambient : Option Nat) (bodyTrace : List Ev) (e : ExitKind) :
    List Ev × ExitKind :=
  match ambient with
  | none =>
    ([Ev.sql "BEGIN", Ev.sql "ROLLBACK"] ++ bodyTrace ++
      [Ev.sql (match e with | ExitKind.success => "COMMIT" | _ => "ROLLBACK")], e)
  | some n =>
    ([Ev.sql (savepointSql (n + 1))] ++ bodyTrace ++
      (match e with
        | ExitKind.success => []
        | _ => [Ev.sql (rollbackSavepointSql (n + 1))]), e)

/-- Runs a body at a given ambient transaction counter, collecting the
events reaching the connection. Statements run through the acquirer of
PGliteClient.ts lines 307-313, which inside a transaction yields the held
connection directly; a nested tx node runs the withTransaction glue at the
incremented counter and continues on the branch selected by the exit of
the nested call. -/
def runBody : Option Nat → Body → List Ev × ExitKind
  | _, Body.done e => ([], e)
  | amb, Body.run sql rest =>
    let r := runBody amb rest
    (Ev.sql sql :: r.1, r.2)
  | amb, Body.tx inner onSuccess onError =>
    let ri := runBody (some (nextId amb)) inner
    let rt := withTxGlue amb ri.1 ri.2
    match rt.2 with
    | ExitKind.interrupted => (rt.1, ExitKind.interrupted)
    | ExitKind.success =>
      let rr := runBody amb onSuccess
      (rt.1 ++ rr.1, rr.2)
    | ExitKind.failure =>
      let rr := runBody amb onError
      (rt.1 ++ rr.1, rr.2)

/-- The full event trace of a top level withTransaction call: the body runs
at counter zero, wrapped in the transaction glue with no ambient
transaction. -/
def withTransactionTrace (body : Body) : List Ev × ExitKind :=
  let r := runBody (some 0) body
  withTxGlue none r.1 r.2

/-- The events of the bare statement acquirer of the main client,
PGliteClient.ts lines 307-313: with no ambient transaction it succeeds with
the shared connection directly; the file contains no semaphore, so no gate
event occurs. -/
def acquirerMain : List Ev := []

/-- The events of the bare statement acquirer of the part_010 iteration,
lines 245 and 268-274: semaphore.withPermits(1) wraps only the
Effect.succeed that yields the connection, so the permit is taken and
released before the acquirer returns. -/
def acquirerPart010 : List Ev := [Ev.acquire, Ev.release]

/-- A bare statement on the main client: the acquirer events followed by
the statement reaching the engine. -/
def bareStatementMain (sql : String) : List Ev := acquirerMain ++ [Ev.sql sql]

/-- A bare statement on the part_010 iteration: the acquirer events
followed by the statement reaching the engine. -/
def bareStatementPart010 (sql : String) : List Ev := acquirerPart010 ++ [Ev.sql sql]

/-- Scenario B of the specification: a withTransaction body running two
successful statements in sequence. -/
def scenarioB : Body :=
  Body.run "INSERT INTO users VALUES (1)"
    (Body.run "INSERT INTO users VALUES (2)" (Body.done ExitKind.success))

/-- Scenario C of the specification: a withTransaction body running one
statement and then a nested withTransaction whose body fails; the outer
body swallows the nested failure and succeeds either way. -/
def scenarioC : Body :=
  Body.run "INSERT INTO users VALUES (1)"
    (Body.tx (Body.done ExitKind.failure)
      (Body.done ExitKind.success) (Body.done ExitKind.success))

/-- A withTransaction body cancelled after its first statement. -/
def scenarioCancelled : Body :=
  Body.run "INSERT INTO users VALUES (1)" (Body.done ExitKind.interrupted)

/-! Helper lemmas. -/

theorem string_append_empty (s : String) : s ++ "" = s := by
  cases s with
  | mk l =>
    show String.mk (l ++ []) = String.mk l
    rw [List.append_nil]

theorem doubleQuotesL_eq_nil {l : List Char} (h : doubleQuotesL l = []) : l = [] := by
  cases l with
  | nil => rfl
  | cons c t =>
    by_cases hc : c = '"' <;> simp [doubleQuotesL, hc] at h

theorem undouble_double (l : List Char) : undoubleL (doubleQuotesL l) = l := by
  induction l with
  | nil => rfl
  | cons c t ih =>
    by_cases hc : c = '"'
    · subst hc
      simp only [doubleQuotesL, if_pos rfl]
      simp [undoubleL, ih]
    · simp only [doubleQuotesL, if_neg hc]
      cases h : doubleQuotesL t with
      | nil =>
        have ht : t = [] := doubleQuotesL_eq_nil h
        subst ht
        simp [undoubleL]
      | cons d rest =>
        rw [h] at ih
        simp [undoubleL, hc, ih]

theorem count_doubleQuotesL (l : List Char) :
    (doubleQuotesL l).count '"' = 2 * l.count '"' := by
  induction l with
  | nil => rfl
  | cons c t ih =>
    by_cases hc : c = '"'
    · simp [doubleQuotesL, hc, List.count_cons, ih]
      omega
    · simp [doubleQuotesL, hc, List.count_cons, ih]
      try omega

theorem unescape_escape (s : String) : unescape (escape s) = s := by
  obtain ⟨l⟩ := s
  show String.mk (undoubleL ((('"' :: (doubleQuotesL l ++ ['"'])).drop 1).dropLast)) =
    String.mk l
  rw [List.drop_one, List.tail_cons, List.dropLast_concat, undouble_double]

theorem flatten_length_const {α : Type} (c : Nat) :
    ∀ (l : List (List α)), (∀ r ∈ l, r.length = c) → l.flatten.length = c * l.length
  | [], _ => by simp
  | r :: t, h => by
    have hr : r.length = c := h r (List.mem_cons_self r t)
    have ht := flatten_length_const c t (fun x hx => h x (List.mem_cons_of_mem r hx))
    simp [List.flatten_cons, hr, ht]
    ring

/-! Claim theorems. -/

/-- C1: the claim states that an outer withTransaction wrapping a statement
and a failing nested withTransaction issues exactly the sequence BEGIN,
SAVEPOINT for level one, ROLLBACK TO SAVEPOINT for level one, COMMIT. The
code instead issues a spurious ROLLBACK immediately after BEGIN: the
Effect.ensuring finalizer of acquireConnection is attached to the BEGIN
effect itself instead of the transaction scope, so it fires as soon as
BEGIN completes. The trace below shows the nested counter bookkeeping,
the level one savepoint rollback and the final COMMIT, but with the extra
ROLLBACK in second position, which on the engine terminates the outer
transaction immediately. -/
theorem c1_nested_rollback_trace :
    withTransactionTrace scenarioC =
      ([Ev.sql "BEGIN", Ev.sql "ROLLBACK", Ev.sql "INSERT INTO users VALUES (1)",
        Ev.sql "SAVEPOINT effect_sql_1;", Ev.sql "ROLLBACK TO SAVEPOINT effect_sql_1;",
        Ev.sql "COMMIT"], ExitKind.success) ∧
    (withTransactionTrace scenarioC).1.count (Ev.sql "ROLLBACK") = 1 := by
  exact ⟨rfl, by decide⟩

/-- C2: the claim states that a bare statement acquires the gate permit,
runs, and releases it. On the main client the acquirer resolves the shared
connection with no gate at all, so the statement trace holds no acquire or
release event; on the part_010 iteration the permit wraps only the effect
that yields the connection, so it is released before the statement runs. -/
theorem c2_bare_statement_gate :
    bareStatementMain "SELECT 1" = [Ev.sql "SELECT 1"] ∧
    (bareStatementMain "SELECT 1").count Ev.acquire = 0 ∧
    (bareStatementMain "SELECT 1").count Ev.release = 0 ∧
    bareStatementPart010 "SELECT 1" = [Ev.acquire, Ev.release, Ev.sql "SELECT 1"] ∧
    bareStatementPart010 "SELECT 1" ≠ [Ev.acquire, Ev.sql "SELECT 1", Ev.release] := by
  refine ⟨rfl, by decide, by decide, rfl, by decide⟩

/-- C3: the claim states that a withTransaction call whose body runs two
successful statements issues exactly one BEGIN and one COMMIT and no
ROLLBACK. The code does issue exactly one BEGIN and one COMMIT, but also
one ROLLBACK, immediately after BEGIN, from the misplaced Effect.ensuring
finalizer of acquireConnection. -/
theorem c3_success_trace :
    withTransactionTrace scenarioB =
      ([Ev.sql "BEGIN", Ev.sql "ROLLBACK", Ev.sql "INSERT INTO users VALUES (1)",
        Ev.sql "INSERT INTO users VALUES (2)", Ev.sql "COMMIT"], ExitKind.success) ∧
    (withTransactionTrace scenarioB).1.count (Ev.sql "BEGIN") = 1 ∧
    (withTransactionTrace scenarioB).1.count (Ev.sql "COMMIT") = 1 ∧
    (withTransactionTrace scenarioB).1.count (Ev.sql "ROLLBACK") = 1 := by
  refine ⟨rfl, by decide, by decide, by decide⟩

/-- C4: the claim states that cancelling inside withTransaction issues a
rollback before the gate permit is released and leaves the permit free. A
ROLLBACK is indeed issued after the interruption point, outside the
restorable region and hence uninterruptibly, but the trace holds no gate
event at all: neither acquireConnection nor the acquirer touches any
semaphore in the source, so no permit exists to be held during the
transaction or released after it. -/
theorem c4_cancellation_trace :
    withTransactionTrace scenarioCancelled =
      ([Ev.sql "BEGIN", Ev.sql "ROLLBACK", Ev.sql "INSERT INTO users VALUES (1)",
        Ev.sql "ROLLBACK"], ExitKind.interrupted) ∧
    (withTransactionTrace scenarioCancelled).1.count Ev.acquire = 0 ∧
    (withTransactionTrace scenarioCancelled).1.count Ev.release = 0 := by
  refine ⟨rfl, by decide, by decide⟩

/-- C5: for every nonempty row list whose rows each carry one value per
column, compileInsert emits exactly one parenthesized value group per row
and a parameter list of length columns times rows, scalar values passing
through unchanged; on the concrete scenario the text holds two value
groups and the parameters are 1, x, 2, y in row major order. -/
theorem c5_insert_groups_params :
    (∀ (columns : List String) (rows : List (List Value)),
        rows ≠ [] → (∀ r ∈ rows, r.length = columns.length) →
        (insertValueGroups rows.length columns.length).length = rows.length ∧
        (compileInsert columns rows).1 =
          "(" ++ String.intercalate ", " (columns.map escape) ++ ") VALUES " ++
            String.intercalate "," (insertValueGroups rows.length columns.length) ∧
        (compileInsert columns rows).2.length = columns.length * rows.length) ∧
    (∀ v : Value, isScalar v = true → encodeValue v = v) ∧
    compileInsert ["a", "b"] [[Value.num 1, Value.str "x"], [Value.num 2, Value.str "y"]] =
      ("(\"a\", \"b\") VALUES ($1,$2),($3,$4)",
        [Value.num 1, Value.str "x", Value.num 2, Value.str "y"]) := by
  refine ⟨?_, ?_, rfl⟩
  · intro columns rows _ hlen
    refine ⟨by simp [insertValueGroups], ?_, ?_⟩
    · have h1 : (compileInsert columns rows).1 =
          "(" ++ String.intercalate ", " (columns.map escape) ++ ") VALUES " ++
            insertPlaceholders rows.length columns.length ++ "" := rfl
      rw [h1, string_append_empty, insertPlaceholders]
    · have h2 : (compileInsert columns rows).2 =
          (rows.flatten.map encodeValue) ++ [] := rfl
      rw [h2, List.append_nil, List.length_map]
      exact flatten_length_const columns.length rows hlen
  · intro v h
    simp [encodeValue, h]

/-- Witness for C5 at the concrete scenario input. -/
theorem c5_witness :
    (insertValueGroups 2 2).length = 2 ∧
    (compileInsert ["a", "b"]
      [[Value.num 1, Value.str "x"], [Value.num 2, Value.str "y"]]).2.length = 2 * 2 := by
  have h := c5_insert_groups_params.1 ["a", "b"]
    [[Value.num 1, Value.str "x"], [Value.num 2, Value.str "y"]]
    (by simp)
    (by
      intro r hr
      cases hr with
      | head => rfl
      | tail _ h2 =>
        cases h2 with
        | head => rfl
        | tail _ h3 => cases h3)
  exact ⟨h.1, h.2.2⟩

/-- C6: for every identifier containing a quote character, the quoting
doubles each embedded quote, and stripping the outer quotes then collapsing
doubled quotes recovers the original identifier; a configured and not
suppressed name transform is applied before quoting. -/
theorem c6_identifier_roundtrip :
    (∀ name : String, '"' ∈ name.data →
        (doubleQuotes name).data.count '"' = 2 * name.data.count '"' ∧
        unescape (escape name) = name) ∧
    (∀ (f : String → String) (value : String),
        onIdentifier (some f) value false = escape (f value)) ∧
    (∀ value : String, onIdentifier none value false = escape value) := by
  refine ⟨?_, fun f value => rfl, fun value => rfl⟩
  intro name _
  exact ⟨count_doubleQuotesL name.data, unescape_escape name⟩

/-- Witness for C6 at a concrete identifier containing a quote. -/
theorem c6_witness :
    '"' ∈ ("ab\"cd" : String).data ∧ unescape (escape "ab\"cd") = "ab\"cd" :=
  ⟨by decide, (c6_identifier_roundtrip.1 "ab\"cd" (by decide)).2⟩

/-- C7: the claim states that the key column is always excluded from the
SET list of a bulk update. The compiled statement below for key column id
and columns id, name contains a CASE clause for the quoted id column: the
filter of onRecordUpdate compares each quoted column name with the bare
string id and therefore never removes anything, as the second conjunct
shows on the exact column list the callback computes. -/
theorem c7_bulk_update_key_not_excluded :
    compileBulkUpdate ["id", "name"] [[Value.str "1", Value.str "Alice"]] =
      ("\"id\" = CASE WHEN id = $1 THEN $1 ELSE \"id\" END, " ++
        "\"name\" = CASE WHEN id = $1 THEN $2 ELSE \"name\" END WHERE id IN ($1)",
        [Value.str "1", Value.str "Alice"]) ∧
    (jsSplit (jsSlice "(\"id\",\"name\")" 1 ("(\"id\",\"name\")".length - 1)) ',').filter
        (fun col => col != "id") =
      ["\"id\"", "\"name\""] := by
  exact ⟨rfl, rfl⟩

/-- C8 counterexample: the claim states that the execution error carries
the text of the failing statement. Two runs of different statements against
the same failing engine produce identical errors, whose message is the
fixed string of the source, so the error cannot contain the statement
text. -/
theorem c8_counterexample :
    PGliteConnection.run (fun _ _ => Except.error "connection lost") "SELECT a" [] =
      PGliteConnection.run (fun _ _ => Except.error "connection lost") "SELECT b" [] ∧
    ("SELECT a" : String) ≠ "SELECT b" ∧
    PGliteConnection.run (fun _ _ => Except.error "connection lost") "SELECT a" [] =
      Except.error ⟨"connection lost", "Failed to execute statement"⟩ := by
  refine ⟨rfl, by decide, rfl⟩

/-- C8 as amended: every failing connection operation wraps the engine
native cause into a SqlError with the fixed message, for run, runRaw,
execute with any row transform, executeRaw and executeValues. -/
theorem c8_error_wrapping (engine : Engine) (sql : String) (params : List Value)
    (cause : String) (transformRows : Option (List Row → List Row))
    (h : engine sql params = Except.error cause) :
    PGliteConnection.run engine sql params =
      Except.error ⟨cause, "Failed to execute statement"⟩ ∧
    PGliteConnection.runRaw engine sql params =
      Except.error ⟨cause, "Failed to execute statement"⟩ ∧
    PGliteConnection.execute engine sql params transformRows =
      Except.error ⟨cause, "Failed to execute statement"⟩ ∧
    PGliteConnection.executeRaw engine sql params =
      Except.error ⟨cause, "Failed to execute statement"⟩ ∧
    PGliteConnection.executeValues engine sql params =
      Except.error ⟨cause, "Failed to execute statement"⟩ := by
  cases transformRows
  all_goals
    simp [PGliteConnection.run, PGliteConnection.runRaw, PGliteConnection.execute,
      PGliteConnection.executeRaw, PGliteConnection.executeValues, Except.map, h]

/-- Witness for C8 at a concrete failing engine and statement. -/
theorem c8_witness :
    PGliteConnection.run (fun _ _ => Except.error "boom") "INSERT INTO t VALUES (1)" [] =
      Except.error ⟨"boom", "Failed to execute statement"⟩ :=
  (c8_error_wrapping (fun _ _ => Except.error "boom") "INSERT INTO t VALUES (1)" []
    "boom" none rfl).1

/-- C9: the claim states that executeValues returns one positional array
per row holding the row values in column order. Array.from applied to a
plain row object yields the empty array, so for a row with fields a and b
the code returns a list holding one empty array instead of the two field
values shown in the third conjunct. -/
theorem c9_executeValues_positional :
    PGliteConnection.executeValues
        (fun _ _ => Except.ok ⟨[[("a", Value.num 1), ("b", Value.num 2)]]⟩)
        "SELECT * FROM t" [] =
      Except.ok [[]] ∧
    jsArrayFrom [("a", Value.num 1), ("b", Value.num 2)] = [] ∧
    ([("a", Value.num 1), ("b", Value.num 2)].map Prod.snd) =
      [Value.num 1, Value.num 2] ∧
    (jsArrayFrom [("a", Value.num 1), ("b", Value.num 2)]).length ≠
      ([("a", Value.num 1), ("b", Value.num 2)] : Row).length := by
  refine ⟨rfl, rfl, rfl, by decide⟩

/-- C10: every parameter value that is not a boolean, number or string,
null included, is replaced by its JSON.stringify serialization in the
parameter lists of the insert, bulk update and single record update
compilers; null becomes the four character string null rather than passing
through. -/
theorem c10_nonscalar_json :
    (∀ v : Value, isScalar v = false → encodeValue v = Value.str (jsonStringify v)) ∧
    encodeValue Value.null = Value.str "null" ∧
    Value.str "null" ≠ Value.null ∧
    ("null" : String).length = 4 ∧
    (onInsert ["\"a\""] "($1)" [[Value.null]] none).2 = [Value.str "null"] ∧
    (onRecordUpdateSingle ["\"a\""] [Value.null] none).2 = [Value.str "null"] ∧
    (onRecordUpdate "($1,$2)" "data" "(\"id\",\"a\")" [[Value.str "1", Value.null]] none).2 =
      [Value.str "1", Value.str "null"] := by
  refine ⟨?_, rfl, fun h => Value.noConfusion h, rfl, rfl, rfl, rfl⟩
  intro v h
  simp [encodeValue, h]

/-- Witness for C10 at the null value. -/
theorem c10_witness :
    isScalar Value.null = false ∧
    encodeValue Value.null = Value.str (jsonStringify Value.null) :=
  ⟨rfl, c10_nonscalar_json.1 Value.null rfl⟩
